import Mathlib

/-!
Verification of the native-image / native-texture core of the magic-txd
texture engine: the TIFF stream probe, the native-image registry walk,
the NativeImage ownership accounting (fetchFromRaster / putToRaster /
clearImageData / copy construction) and the PVRTC pixel acquisition.
Definitions are shallow embeddings of the corresponding C++ functions in
src/rwlib/src/natimage.cpp, src/rwlib/src/rwimaging.tiff.cpp and
src/rwlib/src/txdwrite.pvr.cpp, with streams as byte lists and the
fallible codec callbacks as explicit parameters.
-/

namespace MagicTxd

/-! ## Byte-stream primitives

A stream is a byte list; a position is a cursor into it.  `readBytes`
models `Stream::read`: it returns the bytes actually read (short reads
happen at end of stream) and the advanced position. -/

def leBytes (l : List Nat) : Nat := l.foldr (fun b acc => b + 256 * acc) 0

def beBytes (l : List Nat) : Nat := l.foldl (fun acc b => acc * 256 + b) 0

/-- Number parser of `tiffImagingExtension::tiff_number_format`: interpret a
byte chunk as an unsigned integer in the chosen endianness. -/
def getUInt (bigEndian : Bool) (l : List Nat) : Nat :=
  if bigEndian then beBytes l else leBytes l

def sliceBytes (bytes : List Nat) (pos n : Nat) : List Nat := (bytes.drop pos).take n

def readBytes (bytes : List Nat) (pos n : Nat) : List Nat × Nat :=
  let chunk := sliceBytes bytes pos n
  (chunk, pos + chunk.length)

/-! ## TIFF probe (`tiffImagingExtension::IsStreamCompatible`)

The probe walks the IFD chain with an explicit fuel bound, since the C++
`while (true)` loop recurses through stream seeks; `none` means the fuel
ran out (the C++ loop has not returned).  The result carries the final
stream position, which the C++ function does not rewind. -/

/-- Item size per TIFF field type, from the `eTIFF_FieldType` dispatch in
`IsStreamCompatible` (BYTE, ASCII, SHORT, LONG, RATIONAL); 0 for unknown
types, which are not validated. -/
def tiffFieldItemSize (fieldType : Nat) : Nat :=
  if fieldType = 1 then 1
  else if fieldType = 2 then 1
  else if fieldType = 3 then 2
  else if fieldType = 4 then 4
  else if fieldType = 5 then 8
  else 0

/-- The `for ( uint32 n = 0; n < dirEntryCount; n++ )` entry-validation loop
of `IsStreamCompatible`: reads 12-byte entries in sequence; `.error p` is the
early `return false` at stream position `p`, `.ok p` falls through with the
position after the last entry. -/
def tiffCheckEntries (bytes : List Nat) (bigEndian : Bool) (tiffSize : Nat) :
    Nat → Nat → Except Nat Nat
  | 0, pos => .ok pos
  | n + 1, pos =>
    let r := readBytes bytes pos 12
    if r.1.length ≠ 12 then .error r.2
    else
      let itemSize := tiffFieldItemSize (getUInt bigEndian (sliceBytes r.1 2 2))
      if itemSize ≠ 0 then
        let actualDataSize := itemSize * getUInt bigEndian (sliceBytes r.1 4 4)
        if 4 < actualDataSize then
          if getUInt bigEndian (sliceBytes r.1 8 4) + actualDataSize ≤ tiffSize then
            tiffCheckEntries bytes bigEndian tiffSize n r.2
          else .error r.2
        else tiffCheckEntries bytes bigEndian tiffSize n r.2
      else tiffCheckEntries bytes bigEndian tiffSize n r.2

/-- The IFD-chain loop of `IsStreamCompatible`: entry count, entries, next-IFD
pointer; terminates with `true` on a zero pointer, rejects with `false` on any
short read, zero entry count or failed entry validation, and seeks to
`tiffStart + nextIFD` otherwise. -/
def tiffWalkIFD (bytes : List Nat) (tiffStart : Nat) (bigEndian : Bool) (tiffSize : Nat) :
    Nat → Nat → Option (Bool × Nat)
  | 0, _ => none
  | fuel + 1, pos =>
    let rc := readBytes bytes pos 2
    if rc.1.length ≠ 2 then some (false, rc.2)
    else
      let dirEntryCount := getUInt bigEndian rc.1
      if dirEntryCount = 0 then some (false, rc.2)
      else
        match tiffCheckEntries bytes bigEndian tiffSize dirEntryCount rc.2 with
        | .error p => some (false, p)
        | .ok pos2 =>
          let rp := readBytes bytes pos2 4
          if rp.1.length ≠ 4 then some (false, rp.2)
          else
            let nextIFD := getUInt bigEndian rp.1
            if nextIFD = 0 then some (true, rp.2)
            else tiffWalkIFD bytes tiffStart bigEndian tiffSize fuel (tiffStart + nextIFD)

/-- Embedding of `tiffImagingExtension::IsStreamCompatible`: 8-byte header
(byte-order word read through the little-endian host cast, magic 42, first
IFD offset), then the IFD chain walk.  Returns the verdict together with the
final stream position; the C++ function returns without restoring the
position. -/
def tiffIsStreamCompatible (bytes : List Nat) (tiffStart : Nat) (fuel : Nat) :
    Option (Bool × Nat) :=
  let tiffSize := bytes.length - tiffStart
  let rh := readBytes bytes tiffStart 8
  if rh.1.length ≠ 8 then some (false, rh.2)
  else
    let byteOrder := leBytes (sliceBytes rh.1 0 2)
    if byteOrder = 0x4949 ∨ byteOrder = 0x4D4D then
      let bigEndian := byteOrder = 0x4D4D
      if getUInt bigEndian (sliceBytes rh.1 2 2) ≠ 42 then some (false, rh.2)
      else
        tiffWalkIFD bytes tiffStart bigEndian tiffSize fuel
          (tiffStart + getUInt bigEndian (sliceBytes rh.1 4 4))
    else some (false, rh.2)

/-! ## Declarative TIFF acceptance (transcribed from the specification) -/

/-- Per-entry validity condition as the spec states it: an entry whose field
type is in BYTE, ASCII, SHORT, LONG, RATIONAL with item sizes 1,1,2,4,8 must
satisfy count times itemSize at most 4, or dataOffset plus count times
itemSize at most the stream size; entries of other types are unconstrained. -/
def tiffEntryOK (bigEndian : Bool) (tiffSize : Nat) (entry : List Nat) : Bool :=
  let ft := getUInt bigEndian (sliceBytes entry 2 2)
  let cnt := getUInt bigEndian (sliceBytes entry 4 4)
  let off := getUInt bigEndian (sliceBytes entry 8 4)
  if ft = 1 ∨ ft = 2 ∨ ft = 3 ∨ ft = 4 ∨ ft = 5 then
    let itemSize := if ft = 1 ∨ ft = 2 then 1 else if ft = 3 then 2 else if ft = 4 then 4 else 8
    decide (cnt * itemSize ≤ 4 ∨ off + cnt * itemSize ≤ tiffSize)
  else true

/-- IFD chain condition as the spec states it: each IFD is a fully-readable
16-bit entry count, which must be non-zero, followed by fully-readable 12-byte
entries each satisfying `tiffEntryOK`, and a fully-readable 32-bit next-IFD
pointer; the chain terminates cleanly on a zero pointer. -/
def tiffSpecChain (bytes : List Nat) (tiffStart : Nat) (bigEndian : Bool) (tiffSize : Nat) :
    Nat → Nat → Option Bool
  | 0, _ => none
  | fuel + 1, pos =>
    if bytes.length < pos + 2 then some false
    else
      let entryCount := getUInt bigEndian (sliceBytes bytes pos 2)
      if entryCount = 0 then some false
      else if bytes.length < pos + 2 + 12 * entryCount then some false
      else if ¬ (∀ i < entryCount,
          tiffEntryOK bigEndian tiffSize (sliceBytes bytes (pos + 2 + 12 * i) 12) = true) then
        some false
      else if bytes.length < pos + 2 + 12 * entryCount + 4 then some false
      else
        let nextIFD := getUInt bigEndian (sliceBytes bytes (pos + 2 + 12 * entryCount) 4)
        if nextIFD = 0 then some true
        else tiffSpecChain bytes tiffStart bigEndian tiffSize fuel (tiffStart + nextIFD)

/-- Acceptance condition of the spec: fully-readable 8-byte header with
byte-order word 0x4949 or 0x4D4D and magic value 42, then the IFD chain walk
from the header offset; at least one IFD, terminated by a zero pointer. -/
def tiffSpecAccepts (bytes : List Nat) (tiffStart : Nat) (fuel : Nat) : Option Bool :=
  if bytes.length < tiffStart + 8 then some false
  else
    let byteOrder := leBytes (sliceBytes bytes tiffStart 2)
    if byteOrder = 0x4949 ∨ byteOrder = 0x4D4D then
      let bigEndian := byteOrder = 0x4D4D
      if getUInt bigEndian (sliceBytes bytes (tiffStart + 2) 2) ≠ 42 then some false
      else
        tiffSpecChain bytes tiffStart bigEndian (bytes.length - tiffStart) fuel
          (tiffStart + getUInt bigEndian (sliceBytes bytes (tiffStart + 4) 4))
    else some false

/-- A minimal well-formed TIFF: little-endian header, one IFD at offset 8
with a single SHORT entry and a zero next-IFD pointer. -/
def tiffMinimalBytes : List Nat :=
  [0x49, 0x49, 0x2A, 0x00, 0x08, 0, 0, 0,
   1, 0,
   0, 1, 3, 0, 1, 0, 0, 0, 0, 0, 0, 0,
   0, 0, 0, 0]

/-- The same TIFF but with the next-IFD pointer aimed back at offset 8: the
IFD chain cycles and the probe loop of `IsStreamCompatible` never exits. -/
def tiffCyclicBytes : List Nat :=
  [0x49, 0x49, 0x2A, 0x00, 0x08, 0, 0, 0,
   1, 0,
   0, 1, 3, 0, 1, 0, 0, 0, 0, 0, 0, 0,
   8, 0, 0, 0]

/-! ## Native-image format registry (`GetNativeImageTypeForStream`)

A registered codec is its type name together with its `IsStreamNativeImage`
probe; a probe consumes the stream from a position and reports compatibility
plus the position it left the stream at.

Modelled from the spec: the `LIST_INSERT` / `LIST_FOREACH` macros that hold
`imgEnv->formatsList` are not under src/; per the spec, the walk "probes every
registered codec in registration order", so the formats list is embedded as a
Lean list in registration order. -/

structure NatImgCodec where
  name : String
  probe : Nat → Bool × Nat

/-- The `LIST_FOREACH` loop of `GetNativeImageTypeForStream` with its
`needsReset` flag: before each probe after the first, and after a match or at
loop exit, the stream is seeked back to `streamObjectPos`. -/
def gnitLoop (streamObjectPos : Nat) :
    List NatImgCodec → Nat → Bool → Option String × Nat
  | [], pos, needsReset => (none, if needsReset then streamObjectPos else pos)
  | c :: rest, pos, needsReset =>
    let pos0 := if needsReset then streamObjectPos else pos
    let pr := c.probe pos0
    if pr.1 then (some c.name, streamObjectPos)
    else gnitLoop streamObjectPos rest pr.2 true

/-- Embedding of `GetNativeImageTypeForStream`: saves `tell()`, walks the
registered codecs, returns the first compatible type name; result is the
returned name (or `none`) together with the stream position on return. -/
def getNativeImageTypeForStream (codecs : List NatImgCodec) (pos : Nat) :
    Option String × Nat :=
  gnitLoop pos codecs pos false

/-! ## NativeImage ownership accounting (`natimage.cpp`)

The model instantiates the system with a single `Raster` (its identity is the
`Nat` stored in `pixelOwner`); codec callbacks (`ReadFromNativeTexture`,
`WriteToNativeTexture`) are passed as `Option` parameters, `none` meaning the
call throws.  `heldConstRefs` is specification instrumentation: it counts the
const-references this handle has taken on its current `pixelOwner` and not
yet released or abandoned; it is incremented exactly where the code calls
`addConstRef` on behalf of the image and zeroed when the image releases the
reference (`remConstRef`) or forgets the raster (`clearImageData` with an
external reference, where the reference is left to its external holder). -/

inductive RwError
  | AlreadyOwned
  | NoNativeData
  | CodecError
  | SizeRuleViolation
  | UnknownFormat
  | StreamTruncated
deriving DecidableEq

structure acquireFeedback where
  hasDirectlyAcquired : Bool
  hasDirectlyAcquiredPalette : Bool
deriving DecidableEq

structure Raster where
  refCount : Nat
  constRef : Nat
  platformData : Option (List Nat)
deriving DecidableEq

structure NativeImagePrivate where
  hasPaletteDataRef : Bool
  hasPixelDataRef : Bool
  pixelOwner : Option Nat
  externalRasterRef : Bool
  heldConstRefs : Nat
deriving DecidableEq

/-- The `NativeImagePrivate( EngineInterface* )` constructor: the empty
ownership state. -/
def emptyNativeImg : NativeImagePrivate :=
  { hasPaletteDataRef := false, hasPixelDataRef := false, pixelOwner := none,
    externalRasterRef := false, heldConstRefs := 0 }

/-- The `NativeImagePrivate( const NativeImagePrivate& )` copy constructor:
copies the borrow flags and `externalRasterRef` verbatim, acquires the raster
(`AcquireRaster`, an owning reference) and takes a const-reference on it
whenever `pixelOwner` is non-null. -/
def copyConstructImage (src : NativeImagePrivate) (r : Raster) :
    NativeImagePrivate × Raster :=
  match src.pixelOwner with
  | some rid =>
    ({ hasPaletteDataRef := src.hasPaletteDataRef,
       hasPixelDataRef := src.hasPixelDataRef,
       pixelOwner := some rid,
       externalRasterRef := src.externalRasterRef,
       heldConstRefs := 1 },
     { r with refCount := r.refCount + 1, constRef := r.constRef + 1 })
  | none =>
    ({ hasPaletteDataRef := src.hasPaletteDataRef,
       hasPixelDataRef := src.hasPixelDataRef,
       pixelOwner := none,
       externalRasterRef := src.externalRasterRef,
       heldConstRefs := 0 }, r)

/-- `NativeImagePrivate::clearImageData`: clears the borrow flags, and if a
`pixelOwner` is linked releases the const-reference (unless the reference is
external), drops the owning reference (`DeleteRaster`) and unlinks the
raster.  The native pixel/palette buffers the type manager frees carry no
ownership state and are not modelled. -/
def clearImageData (img : NativeImagePrivate) (r : Raster) :
    NativeImagePrivate × Raster :=
  match img.pixelOwner with
  | some _ =>
    let r1 := if img.externalRasterRef then r else { r with constRef := r.constRef - 1 }
    let r2 := { r1 with refCount := r1.refCount - 1 }
    (emptyNativeImg, r2)
  | none => (emptyNativeImg, r)

structure FetchResult where
  err : Option RwError
  img : NativeImagePrivate
  raster : Raster
deriving DecidableEq

/-- `NativeImage::fetchFromRaster`: clear prior data, `addConstRef` on the
raster, run the codec's `ReadFromNativeTexture` (`codecRead`, `none` = throw);
on direct acquisition link the raster (`AcquireRaster`) and keep the
const-reference, otherwise (and on throw, via the catch block) release it. -/
def fetchFromRaster (img : NativeImagePrivate) (rid : Nat) (r : Raster)
    (codecRead : Option acquireFeedback) : FetchResult :=
  let c := clearImageData img r
  let r2 : Raster := { c.2 with constRef := c.2.constRef + 1 }
  let img2 : NativeImagePrivate := { c.1 with heldConstRefs := c.1.heldConstRefs + 1 }
  match r2.platformData with
  | none =>
    ⟨some .NoNativeData, { img2 with heldConstRefs := img2.heldConstRefs - 1 },
      { r2 with constRef := r2.constRef - 1 }⟩
  | some _ =>
    match codecRead with
    | none =>
      ⟨some .CodecError, { img2 with heldConstRefs := img2.heldConstRefs - 1 },
        { r2 with constRef := r2.constRef - 1 }⟩
    | some fb =>
      let needsRef := fb.hasDirectlyAcquiredPalette || fb.hasDirectlyAcquired
      let img3 : NativeImagePrivate :=
        { img2 with
          hasPaletteDataRef := fb.hasDirectlyAcquiredPalette,
          hasPixelDataRef := fb.hasDirectlyAcquired,
          pixelOwner := if needsRef then some rid else none,
          externalRasterRef := false }
      let r3 : Raster :=
        if needsRef then { r2 with refCount := r2.refCount + 1 } else r2
      if needsRef then ⟨none, img3, r3⟩
      else
        ⟨none, { img3 with heldConstRefs := img3.heldConstRefs - 1 },
          { r3 with constRef := r3.constRef - 1 }⟩

structure FetchNoLockResult where
  err : Option RwError
  img : NativeImagePrivate
  raster : Raster
  needsRef : Bool
deriving DecidableEq

/-- `NativeImageFetchFromRasterNoLock`: the caller already holds the raster
read-lock and a const-reference, so no const-reference is taken here; on
success `externalRasterRef` is set and `needsRef` reports whether the image
borrowed (the caller must then leave its const-reference in place). -/
def fetchFromRasterNoLock (img : NativeImagePrivate) (rid : Nat) (r : Raster)
    (codecRead : Option acquireFeedback) : FetchNoLockResult :=
  let c := clearImageData img r
  match c.2.platformData with
  | none => ⟨some .NoNativeData, c.1, c.2, false⟩
  | some _ =>
    match codecRead with
    | none => ⟨some .CodecError, c.1, c.2, false⟩
    | some fb =>
      let needsRef := fb.hasDirectlyAcquiredPalette || fb.hasDirectlyAcquired
      let img2 : NativeImagePrivate :=
        { c.1 with
          hasPaletteDataRef := fb.hasDirectlyAcquiredPalette,
          hasPixelDataRef := fb.hasDirectlyAcquired,
          pixelOwner := if needsRef then some rid else none,
          externalRasterRef := true }
      let r2 : Raster :=
        if needsRef then { c.2 with refCount := c.2.refCount + 1 } else c.2
      ⟨none, img2, r2, needsRef⟩

structure PutResult where
  err : Option RwError
  img : NativeImagePrivate
  raster : Raster
  codecCalled : Bool
deriving DecidableEq

/-- `NativeImage::putToRaster` with `NativeImagePutToRaster_internal`: fail
with `AlreadyOwned` while `pixelOwner` is linked; otherwise clear the
destination's prior pixel data (`UnsetPixelDataFromTexture` with
`deallocate = true`) and run the codec's `WriteToNativeTexture` (`codecWrite`
gives the feedback and the payload written, `none` = throw).  `codecCalled`
is instrumentation recording whether `WriteToNativeTexture` was invoked.
The raster's `platformData` list stands for its pixel-and-palette payload. -/
def putToRaster (img : NativeImagePrivate) (r : Raster)
    (codecWrite : Option (acquireFeedback × List Nat)) : PutResult :=
  if img.pixelOwner.isSome then ⟨some .AlreadyOwned, img, r, false⟩
  else
    match r.platformData with
    | none => ⟨some .NoNativeData, img, r, false⟩
    | some _ =>
      let rCleared : Raster := { r with platformData := some [] }
      match codecWrite with
      | none => ⟨some .CodecError, img, rCleared, true⟩
      | some w => ⟨none, img, { rCleared with platformData := some w.2 }, true⟩

/-- `NativeImage::readFromStream`: clear prior data, run the codec's
`ReadNativeImage` (`codecOk = false` = throw); on success the image owns its
bytes (both borrow flags false). -/
def readFromStream (img : NativeImagePrivate) (r : Raster) (codecOk : Bool) :
    Option RwError × NativeImagePrivate × Raster :=
  let c := clearImageData img r
  if codecOk then (none, c.1, c.2)
  else (some .CodecError, c.1, c.2)

/-- `nativeImageTypeInterface::Destruct`: `clearImageData` runs before the
handle is destroyed; the raster state it leaves behind is the observable
effect. -/
def destroyNativeImage (img : NativeImagePrivate) (r : Raster) : Raster :=
  (clearImageData img r).2

/-- Reference-accounting invariant: an image that is linked to a raster with
an internal (non-external) reference holds exactly one const-reference on it,
and an image linked to no raster holds none. -/
def imgRefInv (img : NativeImagePrivate) : Bool :=
  (!(img.pixelOwner.isSome && !img.externalRasterRef) || (img.heldConstRefs == 1)) &&
  (!img.pixelOwner.isNone || (img.heldConstRefs == 0))

/-! ## PVRTC native texture (`txdwrite.pvr.cpp`) -/

inductive ePVRInternalFormat
  | GL_COMPRESSED_RGB_PVRTC_2BPPV1_IMG
  | GL_COMPRESSED_RGB_PVRTC_4BPPV1_IMG
  | GL_COMPRESSED_RGBA_PVRTC_2BPPV1_IMG
  | GL_COMPRESSED_RGBA_PVRTC_4BPPV1_IMG
deriving DecidableEq

/-- Modelled from the spec: depth per internal format from the table in
section 4.G.2 (2BPPV1 formats are 2 bits per pixel, 4BPPV1 formats 4); the
source helper `getDepthByPVRFormat` lives in a header not under src/. -/
def getDepthByPVRFormat : ePVRInternalFormat → Nat
  | .GL_COMPRESSED_RGB_PVRTC_2BPPV1_IMG => 2
  | .GL_COMPRESSED_RGBA_PVRTC_2BPPV1_IMG => 2
  | .GL_COMPRESSED_RGB_PVRTC_4BPPV1_IMG => 4
  | .GL_COMPRESSED_RGBA_PVRTC_4BPPV1_IMG => 4

/-- `getPVRCompressionBlockDimensions`: 16 by 8 blocks at depth 2, 8 by 8 at
depth 4, error otherwise. -/
def getPVRCompressionBlockDimensions (pvrDepth : Nat) : Option (Nat × Nat) :=
  if pvrDepth = 2 then some (16, 8)
  else if pvrDepth = 4 then some (8, 8)
  else none

/-- `ALIGN_SIZE`: round `n` up to a multiple of `align`. -/
def alignSize (n align : Nat) : Nat := ((n + align - 1) / align) * align

/-- The 2-bpp-variant test: which internal formats are the 2-bpp ones. -/
def isTwoBppFormat : ePVRInternalFormat → Bool
  | .GL_COMPRESSED_RGB_PVRTC_2BPPV1_IMG => true
  | .GL_COMPRESSED_RGBA_PVRTC_2BPPV1_IMG => true
  | _ => false

/-- The RGBA-variant test: which internal formats carry alpha. -/
def isRGBAFormat : ePVRInternalFormat → Bool
  | .GL_COMPRESSED_RGBA_PVRTC_2BPPV1_IMG => true
  | .GL_COMPRESSED_RGBA_PVRTC_4BPPV1_IMG => true
  | _ => false

structure pvrMipmapInput where
  width : Nat
  height : Nat
  layerWidth : Nat
  layerHeight : Nat
deriving DecidableEq

structure pixelDataTraversal where
  mipmaps : List pvrMipmapInput
  hasAlpha : Bool
deriving DecidableEq

structure pvrMipmapLayer where
  width : Nat
  height : Nat
  layerWidth : Nat
  layerHeight : Nat
  formatUsed : ePVRInternalFormat
deriving DecidableEq

structure NativeTexturePVR where
  mipmaps : List pvrMipmapLayer
  hasAlpha : Bool
  internalFormat : ePVRInternalFormat
deriving DecidableEq

/-- The internal-format selection of `SetPixelDataToTexture`:
`canBeCompressedHigh` iff layer 0 area is at least 100 times 100, then the
2-bpp variant on high, the 4-bpp variant otherwise, RGBA variants iff
`hasAlpha`. -/
def choosePVRInternalFormat (hasAlpha : Bool) (layer0W layer0H : Nat) : ePVRInternalFormat :=
  let canBeCompressedHigh := 100 * 100 ≤ layer0W * layer0H
  if hasAlpha then
    if canBeCompressedHigh then .GL_COMPRESSED_RGBA_PVRTC_2BPPV1_IMG
    else .GL_COMPRESSED_RGBA_PVRTC_4BPPV1_IMG
  else
    if canBeCompressedHigh then .GL_COMPRESSED_RGB_PVRTC_2BPPV1_IMG
    else .GL_COMPRESSED_RGB_PVRTC_4BPPV1_IMG

/-- Embedding of `pvrNativeTextureTypeProvider::SetPixelDataToTexture`.
`verifyPixelData` stands for `nativeTextureSizeRules::verifyPixelData`
(modelled from the spec as an opaque per-platform predicate, its body is not
under src/); on failure the operation throws `SizeRuleViolation` before
touching the texture.  Each compressed mipmap records in `formatUsed` the
internal format its compression used; the result carries the
`feedbackOut.hasDirectlyAcquired` value.  The C++ indexes `mipmaps[0]`
without an emptiness check, so the model is only meaningful for non-empty
mipmap lists (the empty branch mirrors the size-rule rejection). -/
def pvrSetPixelDataToTexture (pixelsIn : pixelDataTraversal)
    (verifyPixelData : pixelDataTraversal → Bool) :
    Except RwError (NativeTexturePVR × Bool) :=
  if verifyPixelData pixelsIn = false then .error .SizeRuleViolation
  else
    match pixelsIn.mipmaps with
    | [] => .error .SizeRuleViolation
    | m0 :: _ =>
      let hasAlpha := pixelsIn.hasAlpha
      let internalFormat := choosePVRInternalFormat hasAlpha m0.layerWidth m0.layerHeight
      let pvrDepth := getDepthByPVRFormat internalFormat
      match getPVRCompressionBlockDimensions pvrDepth with
      | none => .error .UnknownFormat
      | some bdim =>
        let newMips := pixelsIn.mipmaps.map (fun m =>
          { width := alignSize m.width bdim.1, height := alignSize m.height bdim.2,
            layerWidth := m.layerWidth, layerHeight := m.layerHeight,
            formatUsed := internalFormat })
        .ok ({ mipmaps := newMips, hasAlpha := hasAlpha,
               internalFormat := internalFormat }, false)

/-! ## PVR texture-block probe (`IsCompatibleTextureBlock`) -/

inductive eTexNativeCompatibility
  | RWTEXCOMPAT_NONE
  | RWTEXCOMPAT_MAYBE
  | RWTEXCOMPAT_ABSOLUTE
deriving DecidableEq

/-- Modelled from the spec: a serialized block is its chunk id and payload
bytes; `BlockProvider` is not under src/.  The concrete values of
`CHUNK_STRUCT` and `PLATFORM_PVR` live in headers not under src/; the claims
depend only on them being fixed and distinct. -/
structure Block where
  blockID : Nat
  payload : List Nat
deriving DecidableEq

def CHUNK_STRUCT : Nat := 1

def PLATFORM_PVR : Nat := 9

/-- Modelled from the spec: `BlockProvider::readUInt32` reads four bytes of
the block payload and fails with a stream-truncation error past its end
(section 4.B short reads, section 7 StreamTruncated). -/
def blockReadUInt32 (b : Block) (off : Nat) : Option Nat :=
  if off + 4 ≤ b.payload.length then some (leBytes (sliceBytes b.payload off 4))
  else none

/-- Embedding of `pvrNativeTextureTypeProvider::IsCompatibleTextureBlock`:
inspect a struct block's platform descriptor; `RWTEXCOMPAT_ABSOLUTE` on
`PLATFORM_PVR`.  The `catch` block only balances `LeaveContext` and
rethrows, so a truncated read propagates out as an error. -/
def pvrIsCompatibleTextureBlock (b : Block) : Except RwError eTexNativeCompatibility :=
  if b.blockID = CHUNK_STRUCT then
    match blockReadUInt32 b 0 with
    | none => .error .StreamTruncated
    | some d =>
      .ok (if d = PLATFORM_PVR then .RWTEXCOMPAT_ABSOLUTE else .RWTEXCOMPAT_NONE)
  else .ok .RWTEXCOMPAT_NONE

/-! ## TIFF scanline acquisition decision (`DeserializeImage` / `SerializeImage`) -/

inductive eRasterFormat
  | RASTER_DEFAULT
  | RASTER_LUM
  | RASTER_LUM_ALPHA
  | RASTER_888
  | RASTER_8888
deriving DecidableEq

inductive eColorOrdering
  | COLOR_RGBA
  | COLOR_BGRA
deriving DecidableEq

inductive ePaletteType
  | PALETTE_NONE
  | PALETTE_4BIT
  | PALETTE_4BIT_LSB
  | PALETTE_8BIT
deriving DecidableEq

/-- Modelled from the spec: `doRawBuffersNeedConversion` (section 4.A) is
true iff the raster format, depth, color order or palette type differ between
the two layouts; the source function `doRawMipmapBuffersNeedConversion` lives
in a header not under src/. -/
def doRawMipmapBuffersNeedConversion
    (srcFormat : eRasterFormat) (srcDepth : Nat) (srcOrder : eColorOrdering)
    (srcPalette : ePaletteType)
    (dstFormat : eRasterFormat) (dstDepth : Nat) (dstOrder : eColorOrdering)
    (dstPalette : ePaletteType) : Bool :=
  decide (srcFormat ≠ dstFormat ∨ srcDepth ≠ dstDepth ∨ srcOrder ≠ dstOrder ∨
          srcPalette ≠ dstPalette)

/-- The acquisition decision of `tiffImagingExtension::DeserializeImage`
(known-mapping branch): returns
`(canTexelsDirectlyAcquire, canColorDirectlyAcquire)` exactly as the code
computes them — note the code assigns `canColorDirectlyAcquire` the bare
result of `doRawMipmapBuffersNeedConversion` with no negation. -/
def tiffDeserializeAcquireFlags (scanlineSize dstRowSize : Nat)
    (tiffFormat dstFormat : eRasterFormat) (tiffDepth dstDepth : Nat)
    (tiffOrder dstOrder : eColorOrdering) (dstPaletteType : ePaletteType) :
    Bool × Bool :=
  if scanlineSize = dstRowSize then
    if dstPaletteType = .PALETTE_NONE then
      let canColor :=
        doRawMipmapBuffersNeedConversion tiffFormat tiffDepth tiffOrder .PALETTE_NONE
          dstFormat dstDepth dstOrder .PALETTE_NONE
      (canColor, canColor)
    else (true, false)
  else (false, false)

/-- The symmetric decision of `tiffImagingExtension::SerializeImage`: direct
write requires `doRawMipmapBuffersNeedConversion(...) == false` (negated, as
in the source) together with matching row sizes, or, for palettes, identical
palette type, depth and row size. -/
def tiffSerializeCanDirectlyWrite (tiffRowSize srcRowSize : Nat)
    (srcFormat tiffFormat : eRasterFormat) (srcDepth tiffDepth : Nat)
    (srcOrder tiffOrder : eColorOrdering)
    (srcPaletteType tiffPaletteType : ePaletteType) : Bool :=
  if tiffPaletteType ≠ .PALETTE_NONE then
    decide (tiffPaletteType = srcPaletteType ∧ tiffDepth = srcDepth ∧
            srcRowSize = tiffRowSize)
  else
    (doRawMipmapBuffersNeedConversion srcFormat srcDepth srcOrder srcPaletteType
        tiffFormat tiffDepth tiffOrder tiffPaletteType == false) &&
    (tiffRowSize == srcRowSize)

/-! ## Theorems -/

theorem sliceBytes_length (l : List Nat) (p n : Nat) :
    (sliceBytes l p n).length = min n (l.length - p) := by
  simp [sliceBytes]

theorem sliceBytes_sliceBytes (l : List Nat) (p m i n : Nat) (h : i + n ≤ m) :
    sliceBytes (sliceBytes l p m) i n = sliceBytes l (p + i) n := by
  simp only [sliceBytes, List.drop_take, List.drop_drop, List.take_take]
  congr 1
  omega

theorem clearImageData_fst (img : NativeImagePrivate) (r : Raster) :
    (clearImageData img r).1 = emptyNativeImg := by
  cases h : img.pixelOwner <;> simp [clearImageData, h]

theorem putToRaster_img (img : NativeImagePrivate) (r : Raster)
    (cw : Option (acquireFeedback × List Nat)) : (putToRaster img r cw).img = img := by
  unfold putToRaster
  by_cases h : img.pixelOwner.isSome = true
  · simp [h]
  · simp only [h]
    cases hp : r.platformData <;> cases cw <;> simp [hp, h]

/-- C1: an image whose `pixelOwner` is linked with a non-external reference
holds exactly one const-reference on it.  The invariant `imgRefInv` implies
the claim's property, holds for a freshly constructed image and is preserved
by every modelled operation; and in the concrete scenario, fetching from a
raster with `constRef = 0` under `hasDirectlyAcquired = true` feedback leaves
`constRef = 1` and `pixelOwner` linked, and destroying the image brings
`constRef` back to 0. -/
theorem C1_nativeimage_constref_invariant :
    (∀ img : NativeImagePrivate, imgRefInv img = true →
      img.pixelOwner.isSome = true → img.externalRasterRef = false →
      img.heldConstRefs = 1)
    ∧ imgRefInv emptyNativeImg = true
    ∧ (∀ img r, imgRefInv (clearImageData img r).1 = true)
    ∧ (∀ src r, imgRefInv (copyConstructImage src r).1 = true)
    ∧ (∀ img rid r cr, imgRefInv (fetchFromRaster img rid r cr).img = true)
    ∧ (∀ img rid r cr, imgRefInv (fetchFromRasterNoLock img rid r cr).img = true)
    ∧ (∀ img r cw, imgRefInv img = true → imgRefInv (putToRaster img r cw).img = true)
    ∧ (∀ img r ok, imgRefInv (readFromStream img r ok).2.1 = true)
    ∧ (∀ data : List Nat,
        (fetchFromRaster emptyNativeImg 0 ⟨1, 0, some data⟩ (some ⟨true, false⟩)).err = none
        ∧ (fetchFromRaster emptyNativeImg 0 ⟨1, 0, some data⟩ (some ⟨true, false⟩)).raster.constRef = 1
        ∧ (fetchFromRaster emptyNativeImg 0 ⟨1, 0, some data⟩ (some ⟨true, false⟩)).img.pixelOwner = some 0
        ∧ (destroyNativeImage
            (fetchFromRaster emptyNativeImg 0 ⟨1, 0, some data⟩ (some ⟨true, false⟩)).img
            (fetchFromRaster emptyNativeImg 0 ⟨1, 0, some data⟩ (some ⟨true, false⟩)).raster).constRef = 0) := by
  refine ⟨?_, by decide, ?_, ?_, ?_, ?_, ?_, ?_, ?_⟩
  · intro img hinv hsome hext
    rcases ho : img.pixelOwner with _ | rid
    · rw [ho] at hsome
      simp at hsome
    · unfold imgRefInv at hinv
      rw [ho, hext] at hinv
      simpa using hinv
  · intro img r
    rw [clearImageData_fst]
    decide
  · intro src r
    cases h : src.pixelOwner <;> simp [copyConstructImage, h, imgRefInv]
  · intro img rid r cr
    unfold fetchFromRaster
    have hc := clearImageData_fst img r
    cases hp : (clearImageData img r).2.platformData <;>
      cases cr <;>
        simp only [hc, hp, emptyNativeImg]
    · decide
    · decide
    · decide
    · rename_i fb
      cases hda : fb.hasDirectlyAcquired <;> cases hdp : fb.hasDirectlyAcquiredPalette <;>
        simp [hda, hdp, imgRefInv]
  · intro img rid r cr
    unfold fetchFromRasterNoLock
    have hc := clearImageData_fst img r
    cases hp : (clearImageData img r).2.platformData <;>
      cases cr <;>
        simp only [hc, hp, emptyNativeImg]
    · decide
    · decide
    · decide
    · rename_i fb
      cases hda : fb.hasDirectlyAcquired <;> cases hdp : fb.hasDirectlyAcquiredPalette <;>
        simp [hda, hdp, imgRefInv]
  · intro img r cw hinv
    rw [putToRaster_img]
    exact hinv
  · intro img r ok
    unfold readFromStream
    have hc := clearImageData_fst img r
    cases ok <;> simp [hc] <;> decide
  · intro data
    refine ⟨rfl, rfl, rfl, rfl⟩

/-- C1 witness: the invariant hypotheses are satisfiable; the borrowed state
produced by a concrete fetch holds exactly one const-reference. -/
theorem C1_witness :
    imgRefInv (fetchFromRaster emptyNativeImg 0 ⟨1, 0, some [7]⟩ (some ⟨true, false⟩)).img = true
    ∧ (fetchFromRaster emptyNativeImg 0 ⟨1, 0, some [7]⟩ (some ⟨true, false⟩)).img.heldConstRefs = 1 :=
  ⟨by decide,
   C1_nativeimage_constref_invariant.1
     (fetchFromRaster emptyNativeImg 0 ⟨1, 0, some [7]⟩ (some ⟨true, false⟩)).img
     (by decide) (by decide) (by decide)⟩

/-- C4 (amended): `putToRaster` failures before the destination was touched
(`AlreadyOwned`, missing native data) leave the destination raster exactly as
on entry; but a throw from the codec's `writeToNativeTexture` leaves the
destination with its payload already cleared, not with its entry state. -/
theorem C4_putToRaster_destination_on_throw :
    ∀ (img : NativeImagePrivate) (r : Raster) (cw : Option (acquireFeedback × List Nat)),
      ((putToRaster img r cw).err = some RwError.CodecError →
        (putToRaster img r cw).raster.platformData = some [])
      ∧ ((putToRaster img r cw).err = some RwError.AlreadyOwned ∨
          (putToRaster img r cw).err = some RwError.NoNativeData →
        (putToRaster img r cw).raster = r) := by
  intro img r cw
  unfold putToRaster
  by_cases h : img.pixelOwner.isSome = true
  · simp [h]
  · simp only [h]
    cases hp : r.platformData <;> cases cw <;> simp [hp, h]

/-- C4 witness: the codec-throw hypothesis is realisable, and the no-touch
cases return the destination unchanged. -/
theorem C4_witness :
    (putToRaster emptyNativeImg ⟨1, 0, some [1, 2, 3]⟩ none).raster.platformData = some []
    ∧ (putToRaster emptyNativeImg ⟨1, 0, none⟩ none).raster = ⟨1, 0, none⟩ :=
  ⟨(C4_putToRaster_destination_on_throw emptyNativeImg ⟨1, 0, some [1, 2, 3]⟩ none).1 (by decide),
   (C4_putToRaster_destination_on_throw emptyNativeImg ⟨1, 0, none⟩ none).2 (by decide)⟩

/-- C4 counterexample: with a non-empty destination payload and a throwing
codec write, `putToRaster` throws yet the destination's payload differs from
its entry state — the strong exception guarantee does not hold. -/
theorem C4_counterexample :
    (putToRaster emptyNativeImg ⟨1, 0, some [1, 2, 3]⟩ none).err.isSome = true
    ∧ (putToRaster emptyNativeImg ⟨1, 0, some [1, 2, 3]⟩ none).raster.platformData
        ≠ some [1, 2, 3] := by
  decide

/-- C5 (amended): a failed `fetchFromRaster` leaves the NativeImage in the
empty ownership state (`clearImageData` ran before the failed codec call),
but a failed `putToRaster` leaves the image's ownership state exactly as on
entry — in particular an `AlreadyOwned` failure leaves `pixelOwner`
non-null. -/
theorem C5_failed_transfer_image_state :
    (∀ img rid r cr e, (fetchFromRaster img rid r cr).err = some e →
      (fetchFromRaster img rid r cr).img = emptyNativeImg)
    ∧ (∀ img r cw e, (putToRaster img r cw).err = some e →
      (putToRaster img r cw).img = img) := by
  constructor
  · intro img rid r cr e
    unfold fetchFromRaster
    have hc := clearImageData_fst img r
    cases hp : (clearImageData img r).2.platformData with
    | none => simp [hc, hp, emptyNativeImg]
    | some d =>
      cases cr with
      | none => simp [hc, hp, emptyNativeImg]
      | some fb =>
        cases hda : fb.hasDirectlyAcquired <;> cases hdp : fb.hasDirectlyAcquiredPalette <;>
          simp [hc, hp, hda, hdp]
  · intro img r cw e _
    exact putToRaster_img img r cw

/-- C5 witness: a concrete failing fetch (codec throw) leaves the image
empty. -/
theorem C5_witness :
    (fetchFromRaster emptyNativeImg 0 ⟨1, 0, some [7]⟩ none).img = emptyNativeImg :=
  C5_failed_transfer_image_state.1 emptyNativeImg 0 ⟨1, 0, some [7]⟩ none
    RwError.CodecError (by decide)

/-- C5 counterexample: a `putToRaster` on a borrowing image (reached by a
concrete fetch) throws `AlreadyOwned`, yet the image is not left in the empty
ownership state: `pixelOwner` is still linked. -/
theorem C5_counterexample :
    (putToRaster (fetchFromRaster emptyNativeImg 0 ⟨1, 0, some [7]⟩ (some ⟨true, false⟩)).img
        ⟨2, 1, some [7]⟩ none).err = some RwError.AlreadyOwned
    ∧ (putToRaster (fetchFromRaster emptyNativeImg 0 ⟨1, 0, some [7]⟩ (some ⟨true, false⟩)).img
        ⟨2, 1, some [7]⟩ none).img.pixelOwner = some 0 := by
  decide

/-- C6: `putToRaster` fails with `AlreadyOwned` exactly when `pixelOwner` is
linked — in that case the codec's `writeToNativeTexture` is not invoked and
the destination raster is untouched; when `pixelOwner` is null the
`AlreadyOwned` error is never raised. -/
theorem C6_putToRaster_alreadyOwned :
    ∀ (img : NativeImagePrivate) (r : Raster) (cw : Option (acquireFeedback × List Nat)),
      (img.pixelOwner.isSome = true →
        (putToRaster img r cw).err = some RwError.AlreadyOwned
        ∧ (putToRaster img r cw).codecCalled = false
        ∧ (putToRaster img r cw).raster = r)
      ∧ (img.pixelOwner = none →
        (putToRaster img r cw).err ≠ some RwError.AlreadyOwned) := by
  intro img r cw
  constructor
  · intro h
    simp [putToRaster, h]
  · intro h
    have h2 : img.pixelOwner.isSome = false := by simp [h]
    unfold putToRaster
    simp only [h2]
    cases hp : r.platformData <;> cases cw <;> simp [hp]

/-- C6 witness: both hypotheses are realisable at concrete states. -/
theorem C6_witness :
    (putToRaster ⟨false, true, some 0, false, 1⟩ ⟨1, 1, some [3]⟩ none).err
      = some RwError.AlreadyOwned
    ∧ (putToRaster emptyNativeImg ⟨1, 0, some [3]⟩ none).err ≠ some RwError.AlreadyOwned :=
  ⟨((C6_putToRaster_alreadyOwned ⟨false, true, some 0, false, 1⟩ ⟨1, 1, some [3]⟩ none).1
      (by decide)).1,
   (C6_putToRaster_alreadyOwned emptyNativeImg ⟨1, 0, some [3]⟩ none).2 (by decide)⟩

/-- C10: copy-constructing a NativeImage with a linked `pixelOwner` shares
the owner, increments the raster's owning and const reference counts by one,
copies the three flags verbatim, and takes the const-reference even when
`externalRasterRef` is true — in which case the copy's later `clearImageData`
does not release it. -/
theorem C10_copy_construct :
    ∀ (src : NativeImagePrivate) (r : Raster) (rid : Nat),
      src.pixelOwner = some rid →
      (copyConstructImage src r).1.pixelOwner = some rid
      ∧ (copyConstructImage src r).2.refCount = r.refCount + 1
      ∧ (copyConstructImage src r).2.constRef = r.constRef + 1
      ∧ (copyConstructImage src r).1.hasPaletteDataRef = src.hasPaletteDataRef
      ∧ (copyConstructImage src r).1.hasPixelDataRef = src.hasPixelDataRef
      ∧ (copyConstructImage src r).1.externalRasterRef = src.externalRasterRef
      ∧ (copyConstructImage src r).1.heldConstRefs = 1
      ∧ (src.externalRasterRef = true →
          (clearImageData (copyConstructImage src r).1 (copyConstructImage src r).2).2.constRef
            = (copyConstructImage src r).2.constRef) := by
  intro src r rid h
  refine ⟨?_, ?_, ?_, ?_, ?_, ?_, ?_, ?_⟩ <;>
    simp [copyConstructImage, h, clearImageData]
  intro he
  simp [he]

/-- C10 witness: a copy of an externally-referencing image takes the
const-reference and its `clearImageData` does not release it. -/
theorem C10_witness :
    (copyConstructImage ⟨false, true, some 0, true, 0⟩ ⟨1, 1, some []⟩).2.constRef = 2
    ∧ (copyConstructImage ⟨false, true, some 0, true, 0⟩ ⟨1, 1, some []⟩).1.heldConstRefs = 1 :=
  ⟨by
    have h := (C10_copy_construct ⟨false, true, some 0, true, 0⟩ ⟨1, 1, some []⟩ 0 rfl).2.2.1
    simpa using h,
   (C10_copy_construct ⟨false, true, some 0, true, 0⟩ ⟨1, 1, some []⟩ 0 rfl).2.2.2.2.2.2.1⟩

/-- C8 (code bug): for the known non-palette mapping MINISBLACK, 8 bits per
sample, no alpha (TIFF layout LUM/8/RGBA equal to the destination layout)
with matching scanline and destination row sizes, no conversion is needed,
yet `DeserializeImage` does not read scanlines directly — it assigned
`canColorDirectlyAcquire` the bare result of
`doRawMipmapBuffersNeedConversion`, while `SerializeImage` in the same file
negates it; consequently the direct path is taken exactly when conversion is
needed (last conjunct), where raw scanlines would be copied unconverted. -/
theorem C8_deserialize_direct_acquire_inverted :
    tiffDeserializeAcquireFlags 4 4 .RASTER_LUM .RASTER_LUM 8 8 .COLOR_RGBA .COLOR_RGBA
      .PALETTE_NONE = (false, false)
    ∧ doRawMipmapBuffersNeedConversion .RASTER_LUM 8 .COLOR_RGBA .PALETTE_NONE
        .RASTER_LUM 8 .COLOR_RGBA .PALETTE_NONE = false
    ∧ tiffSerializeCanDirectlyWrite 4 4 .RASTER_LUM .RASTER_LUM 8 8 .COLOR_RGBA .COLOR_RGBA
        .PALETTE_NONE .PALETTE_NONE = true
    ∧ tiffDeserializeAcquireFlags 4 4 .RASTER_DEFAULT .RASTER_LUM 8 8 .COLOR_RGBA .COLOR_RGBA
        .PALETTE_NONE = (true, true) := by
  decide

/-- C9: PVRTC `SetPixelDataToTexture` fails with `SizeRuleViolation` when the
size rules reject the input, and otherwise selects the 2-bpp internal format
variant iff the layer-0 area is at least 100 times 100 and the RGBA variant
iff `hasAlpha`, compresses every mipmap with that single format, and always
reports `hasDirectlyAcquired = false`. -/
theorem C9_pvr_set_pixel_data :
    ∀ (pixelsIn : pixelDataTraversal) (verify : pixelDataTraversal → Bool)
      (m0 : pvrMipmapInput) (rest : List pvrMipmapInput),
      pixelsIn.mipmaps = m0 :: rest →
      (verify pixelsIn = false →
        pvrSetPixelDataToTexture pixelsIn verify = .error RwError.SizeRuleViolation)
      ∧ (verify pixelsIn = true →
          ∃ tex : NativeTexturePVR,
            pvrSetPixelDataToTexture pixelsIn verify = .ok (tex, false)
            ∧ tex.internalFormat
                = choosePVRInternalFormat pixelsIn.hasAlpha m0.layerWidth m0.layerHeight
            ∧ (isTwoBppFormat tex.internalFormat = true
                ↔ 100 * 100 ≤ m0.layerWidth * m0.layerHeight)
            ∧ isRGBAFormat tex.internalFormat = pixelsIn.hasAlpha
            ∧ (∀ m ∈ tex.mipmaps, m.formatUsed = tex.internalFormat)) := by
  intro pixelsIn verify m0 rest hmips
  constructor
  · intro hv
    simp [pvrSetPixelDataToTexture, hv]
  · intro hv
    unfold pvrSetPixelDataToTexture
    rw [hmips]
    by_cases harea : 100 * 100 ≤ m0.layerWidth * m0.layerHeight <;>
      cases hA : pixelsIn.hasAlpha <;>
        simp only [hv, Bool.true_eq_false, if_false, ite_false, choosePVRInternalFormat,
          harea, hA, if_true, ite_true, getDepthByPVRFormat,
          getPVRCompressionBlockDimensions] <;>
        refine ⟨_, rfl, by simp [choosePVRInternalFormat, harea, hA],
          by simp [isTwoBppFormat, harea], by rfl, ?_⟩
    all_goals
      intro m hm
      obtain ⟨a, -, rfl⟩ := List.mem_map.1 hm
      rfl

/-- C9 witness: both branches are realisable: a rejecting size rule yields
`SizeRuleViolation`, and an accepted 8 by 8 alpha input goes to the RGBA
4-bpp variant with no direct acquisition. -/
theorem C9_witness :
    pvrSetPixelDataToTexture ⟨[⟨8, 8, 8, 8⟩], true⟩ (fun _ => false)
      = .error RwError.SizeRuleViolation
    ∧ ∃ tex : NativeTexturePVR,
        pvrSetPixelDataToTexture ⟨[⟨8, 8, 8, 8⟩], true⟩ (fun _ => true) = .ok (tex, false)
        ∧ tex.internalFormat = choosePVRInternalFormat true 8 8
        ∧ (isTwoBppFormat tex.internalFormat = true ↔ 100 * 100 ≤ 8 * 8)
        ∧ isRGBAFormat tex.internalFormat = true
        ∧ (∀ m ∈ tex.mipmaps, m.formatUsed = tex.internalFormat) :=
  ⟨(C9_pvr_set_pixel_data ⟨[⟨8, 8, 8, 8⟩], true⟩ (fun _ => false) ⟨8, 8, 8, 8⟩ [] rfl).1 rfl,
   (C9_pvr_set_pixel_data ⟨[⟨8, 8, 8, 8⟩], true⟩ (fun _ => true) ⟨8, 8, 8, 8⟩ [] rfl).2 rfl⟩

theorem gnitLoop_reset (sop : Nat) :
    ∀ (l : List NatImgCodec) (p : Nat),
      gnitLoop sop l p true
        = ((l.find? fun c => (c.probe sop).1).map fun c => c.name, sop) := by
  intro l
  induction l with
  | nil => intro p; simp [gnitLoop]
  | cons c rest ih =>
    intro p
    by_cases h : (c.probe sop).1 = true
    · simp [gnitLoop, h, @List.find?_cons_of_pos NatImgCodec (fun c => (c.probe sop).1) c rest h]
    · rw [@List.find?_cons_of_neg NatImgCodec (fun c => (c.probe sop).1) c rest h]
      simp only [gnitLoop, if_true]
      rw [if_neg (by simpa using h)]
      exact ih _

/-- C2: `GetNativeImageTypeForStream` returns the type name of the first
registered codec (in registration order) whose probe accepts the stream at
the entry position, or `none` when no probe accepts, and in every case the
stream position on return equals the position on entry. -/
theorem C2_getNativeImageTypeForStream :
    ∀ (codecs : List NatImgCodec) (pos : Nat),
      (getNativeImageTypeForStream codecs pos).1
        = (codecs.find? fun c => (c.probe pos).1).map (fun c => c.name)
      ∧ (getNativeImageTypeForStream codecs pos).2 = pos := by
  intro codecs pos
  have h : getNativeImageTypeForStream codecs pos
      = ((codecs.find? fun c => (c.probe pos).1).map fun c => c.name, pos) := by
    cases codecs with
    | nil => simp [getNativeImageTypeForStream, gnitLoop]
    | cons c rest =>
      unfold getNativeImageTypeForStream
      by_cases hc : (c.probe pos).1 = true
      · simp [gnitLoop, hc, @List.find?_cons_of_pos NatImgCodec (fun c => (c.probe pos).1) c rest hc]
      · rw [@List.find?_cons_of_neg NatImgCodec (fun c => (c.probe pos).1) c rest hc]
        simp only [gnitLoop, if_false, Bool.false_eq_true, ite_false]
        rw [if_neg (by simpa using hc)]
        exact gnitLoop_reset pos rest _
  rw [h]
  exact ⟨rfl, rfl⟩

/-- C3 counterexample: the TIFF probe accepts `tiffMinimalBytes` entered at
position 0 but returns with the stream at position 26, not at the saved entry
position — `IsStreamCompatible` never seeks back to `tiff_start`; and the PVR
probe propagates a truncation error out of a too-short struct block instead
of returning `RWTEXCOMPAT_NONE` without throwing. -/
theorem C3_counterexample :
    (tiffIsStreamCompatible tiffMinimalBytes 0 16 = some (true, 26) ∧ (26 : Nat) ≠ 0)
    ∧ pvrIsCompatibleTextureBlock ⟨CHUNK_STRUCT, [1, 2]⟩ = .error RwError.StreamTruncated :=
  ⟨⟨by decide, by decide⟩, rfl⟩

/-- C3 (amended): on malformed input the TIFF probe does not throw and
returns false (short header, or unrecognised byte-order word), and the PVR
probe returns `RWTEXCOMPAT_NONE` for any non-struct block but propagates a
stream-truncation error from a too-short struct block; neither probe restores
the stream position itself — the registry-level caller performs the
restoration. -/
theorem C3_probe_failure_behavior :
    (∀ (bytes : List Nat) (tiffStart fuel : Nat),
        (readBytes bytes tiffStart 8).1.length ≠ 8 →
        ∃ p, tiffIsStreamCompatible bytes tiffStart fuel = some (false, p))
    ∧ (∀ (bytes : List Nat) (tiffStart fuel : Nat),
        (readBytes bytes tiffStart 8).1.length = 8 →
        leBytes (sliceBytes bytes tiffStart 2) ≠ 0x4949 →
        leBytes (sliceBytes bytes tiffStart 2) ≠ 0x4D4D →
        tiffIsStreamCompatible bytes tiffStart fuel = some (false, tiffStart + 8))
    ∧ (∀ b : Block, b.blockID ≠ CHUNK_STRUCT →
        pvrIsCompatibleTextureBlock b = .ok .RWTEXCOMPAT_NONE)
    ∧ (∀ b : Block, b.blockID = CHUNK_STRUCT → b.payload.length < 4 →
        pvrIsCompatibleTextureBlock b = .error RwError.StreamTruncated) := by
  refine ⟨?_, ?_, ?_, ?_⟩
  · intro bytes tiffStart fuel h
    simp only [readBytes] at h
    refine ⟨tiffStart + (sliceBytes bytes tiffStart 8).length, ?_⟩
    simp [tiffIsStreamCompatible, readBytes, h]
  · intro bytes tiffStart fuel h h49 h4D
    have hs : sliceBytes (sliceBytes bytes tiffStart 8) 0 2 = sliceBytes bytes tiffStart 2 := by
      have := sliceBytes_sliceBytes bytes tiffStart 8 0 2 (by omega)
      simpa using this
    simp only [readBytes] at h
    simp [tiffIsStreamCompatible, readBytes, h, hs, h49, h4D]
  · intro b hb
    simp [pvrIsCompatibleTextureBlock, hb]
  · intro b hb hlen
    have h4 : ¬ (0 + 4 ≤ b.payload.length) := by omega
    simp [pvrIsCompatibleTextureBlock, hb, blockReadUInt32, h4]

/-- C3 witness: the failure hypotheses are realisable on concrete streams and
blocks. -/
theorem C3_witness :
    (∃ p, tiffIsStreamCompatible [0x49] 0 4 = some (false, p))
    ∧ tiffIsStreamCompatible [0, 0, 0, 0, 0, 0, 0, 0] 0 4 = some (false, 8)
    ∧ pvrIsCompatibleTextureBlock ⟨2, []⟩ = .ok .RWTEXCOMPAT_NONE
    ∧ pvrIsCompatibleTextureBlock ⟨CHUNK_STRUCT, [1]⟩ = .error RwError.StreamTruncated :=
  ⟨C3_probe_failure_behavior.1 [0x49] 0 4 (by decide),
   C3_probe_failure_behavior.2.1 [0, 0, 0, 0, 0, 0, 0, 0] 0 4 (by decide) (by decide) (by decide),
   C3_probe_failure_behavior.2.2.1 ⟨2, []⟩ (by decide),
   C3_probe_failure_behavior.2.2.2 ⟨CHUNK_STRUCT, [1]⟩ rfl (by decide)⟩

theorem tiffEntryOK_cases (bigE : Bool) (tsize : Nat) (entry : List Nat) :
    tiffEntryOK bigE tsize entry = true ↔
      (tiffFieldItemSize (getUInt bigE (sliceBytes entry 2 2)) = 0 ∨
        ¬ 4 < tiffFieldItemSize (getUInt bigE (sliceBytes entry 2 2)) *
            getUInt bigE (sliceBytes entry 4 4) ∨
        getUInt bigE (sliceBytes entry 8 4) +
            tiffFieldItemSize (getUInt bigE (sliceBytes entry 2 2)) *
            getUInt bigE (sliceBytes entry 4 4) ≤ tsize) := by
  unfold tiffEntryOK tiffFieldItemSize
  by_cases h1 : getUInt bigE (sliceBytes entry 2 2) = 1 <;>
    by_cases h2 : getUInt bigE (sliceBytes entry 2 2) = 2 <;>
      by_cases h3 : getUInt bigE (sliceBytes entry 2 2) = 3 <;>
        by_cases h4 : getUInt bigE (sliceBytes entry 2 2) = 4 <;>
          by_cases h5 : getUInt bigE (sliceBytes entry 2 2) = 5 <;>
            simp [h1, h2, h3, h4, h5, Nat.mul_comm]

theorem tiffCheckEntries_succ_short (bytes : List Nat) (bigE : Bool) (tsize n pos : Nat)
    (h : (sliceBytes bytes pos 12).length ≠ 12) :
    tiffCheckEntries bytes bigE tsize (n + 1) pos
      = .error (pos + (sliceBytes bytes pos 12).length) := by
  simp [tiffCheckEntries, readBytes, h]

theorem tiffCheckEntries_succ_step (bytes : List Nat) (bigE : Bool) (tsize n pos : Nat)
    (hchunk : (sliceBytes bytes pos 12).length = 12) :
    tiffCheckEntries bytes bigE tsize (n + 1) pos =
      if tiffEntryOK bigE tsize (sliceBytes bytes pos 12) = true
      then tiffCheckEntries bytes bigE tsize n (pos + 12)
      else .error (pos + 12) := by
  have hok := tiffEntryOK_cases bigE tsize (sliceBytes bytes pos 12)
  simp only [tiffCheckEntries, readBytes, hchunk]
  rw [if_neg (by simp)]
  by_cases hz : tiffFieldItemSize (getUInt bigE (sliceBytes (sliceBytes bytes pos 12) 2 2)) = 0
  · rw [if_neg (by simp [hz]), if_pos (hok.2 (Or.inl hz))]
  · rw [if_pos (by simp [hz])]
    by_cases hgt : 4 < tiffFieldItemSize (getUInt bigE (sliceBytes (sliceBytes bytes pos 12) 2 2)) *
        getUInt bigE (sliceBytes (sliceBytes bytes pos 12) 4 4)
    · rw [if_pos hgt]
      by_cases hts : getUInt bigE (sliceBytes (sliceBytes bytes pos 12) 8 4) +
          tiffFieldItemSize (getUInt bigE (sliceBytes (sliceBytes bytes pos 12) 2 2)) *
          getUInt bigE (sliceBytes (sliceBytes bytes pos 12) 4 4) ≤ tsize
      · rw [if_pos hts, if_pos (hok.2 (Or.inr (Or.inr hts)))]
      · rw [if_neg hts, if_neg ?_]
        · intro habs
          rcases hok.1 habs with h | h | h
          · exact hz h
          · exact h hgt
          · exact hts h
    · rw [if_neg hgt, if_pos (hok.2 (Or.inr (Or.inl hgt)))]

theorem tiffCheckEntries_of_cond (bytes : List Nat) (bigE : Bool) (tsize : Nat) :
    ∀ (count pos : Nat),
      pos + 12 * count ≤ bytes.length →
      (∀ i < count, tiffEntryOK bigE tsize (sliceBytes bytes (pos + 12 * i) 12) = true) →
      tiffCheckEntries bytes bigE tsize count pos = .ok (pos + 12 * count) := by
  intro count
  induction count with
  | zero =>
    intro pos _ _
    simp [tiffCheckEntries]
  | succ n ih =>
    intro pos hlen hall
    have hchunk : (sliceBytes bytes pos 12).length = 12 := by
      rw [sliceBytes_length]; omega
    have h0 := hall 0 (Nat.succ_pos n)
    rw [show pos + 12 * 0 = pos by omega] at h0
    rw [tiffCheckEntries_succ_step bytes bigE tsize n pos hchunk, if_pos h0,
      ih (pos + 12) (by omega) ?_]
    · congr 1
      omega
    · intro i hi
      have := hall (i + 1) (by omega)
      rw [show pos + 12 * (i + 1) = pos + 12 + 12 * i by ring] at this
      exact this

theorem tiffCheckEntries_of_not_cond (bytes : List Nat) (bigE : Bool) (tsize : Nat) :
    ∀ (count pos : Nat),
      pos ≤ bytes.length →
      ¬ (pos + 12 * count ≤ bytes.length ∧
          ∀ i < count, tiffEntryOK bigE tsize (sliceBytes bytes (pos + 12 * i) 12) = true) →
      ∃ p, tiffCheckEntries bytes bigE tsize count pos = .error p := by
  intro count
  induction count with
  | zero =>
    intro pos hpos h
    exfalso
    exact h ⟨by omega, fun i hi => absurd hi (by omega)⟩
  | succ n ih =>
    intro pos hpos h
    by_cases hchunk : (sliceBytes bytes pos 12).length = 12
    · by_cases h0 : tiffEntryOK bigE tsize (sliceBytes bytes pos 12) = true
      · have htail : ¬ ((pos + 12) + 12 * n ≤ bytes.length ∧
            ∀ i < n, tiffEntryOK bigE tsize (sliceBytes bytes (pos + 12 + 12 * i) 12) = true) := by
          intro ⟨ha, hb⟩
          apply h
          refine ⟨by omega, ?_⟩
          intro i hi
          cases i with
          | zero => rw [show pos + 12 * 0 = pos by omega]; exact h0
          | succ j =>
            have := hb j (by omega)
            rw [show pos + 12 * (j + 1) = pos + 12 + 12 * j by ring]
            exact this
        have hpos12 : pos + 12 ≤ bytes.length := by
          have := sliceBytes_length bytes pos 12
          omega
        obtain ⟨p, hp⟩ := ih (pos + 12) hpos12 htail
        exact ⟨p, by rw [tiffCheckEntries_succ_step bytes bigE tsize n pos hchunk, if_pos h0, hp]⟩
      · exact ⟨pos + 12,
          by rw [tiffCheckEntries_succ_step bytes bigE tsize n pos hchunk, if_neg h0]⟩
    · exact ⟨pos + (sliceBytes bytes pos 12).length,
        tiffCheckEntries_succ_short bytes bigE tsize n pos hchunk⟩

theorem tiffWalkIFD_map_fst (bytes : List Nat) (tstart : Nat) (bigE : Bool) (tsize : Nat) :
    ∀ (fuel pos : Nat),
      (tiffWalkIFD bytes tstart bigE tsize fuel pos).map Prod.fst
        = tiffSpecChain bytes tstart bigE tsize fuel pos := by
  intro fuel
  induction fuel with
  | zero => intro pos; rfl
  | succ n ih =>
    intro pos
    by_cases hc2 : bytes.length < pos + 2
    · have hlen : (sliceBytes bytes pos 2).length ≠ 2 := by
        rw [sliceBytes_length]; omega
      simp [tiffWalkIFD, tiffSpecChain, readBytes, hlen, hc2]
    · have hlen : (sliceBytes bytes pos 2).length = 2 := by
        rw [sliceBytes_length]; omega
      by_cases hz : getUInt bigE (sliceBytes bytes pos 2) = 0
      · simp [tiffWalkIFD, tiffSpecChain, readBytes, hlen, hz, hc2]
      · by_cases hcond : pos + 2 + 12 * getUInt bigE (sliceBytes bytes pos 2) ≤ bytes.length ∧
            ∀ i < getUInt bigE (sliceBytes bytes pos 2),
              tiffEntryOK bigE tsize (sliceBytes bytes (pos + 2 + 12 * i) 12) = true
        · have hok := tiffCheckEntries_of_cond bytes bigE tsize
            (getUInt bigE (sliceBytes bytes pos 2)) (pos + 2) hcond.1 hcond.2
          have hforall : (¬ ∀ i < getUInt bigE (sliceBytes bytes pos 2),
              tiffEntryOK bigE tsize (sliceBytes bytes (pos + 2 + 12 * i) 12) = true) = False :=
            eq_false (not_not_intro hcond.2)
          have hnoex : ¬ ∃ i < getUInt bigE (sliceBytes bytes pos 2),
              tiffEntryOK bigE tsize (sliceBytes bytes (pos + 2 + 12 * i) 12) = false := by
            rintro ⟨i, hi, hbad⟩
            rw [hcond.2 i hi] at hbad
            exact Bool.noConfusion hbad
          by_cases hp4 : bytes.length < pos + 2 + 12 * getUInt bigE (sliceBytes bytes pos 2) + 4
          · have hplen : (sliceBytes bytes (pos + 2 + 12 * getUInt bigE (sliceBytes bytes pos 2)) 4).length ≠ 4 := by
              rw [sliceBytes_length]; omega
            simp [tiffWalkIFD, tiffSpecChain, readBytes, hlen, hz, hc2, hok, hplen, hp4,
              hforall, hnoex, Nat.not_lt.mpr hcond.1]
          · have hplen : (sliceBytes bytes (pos + 2 + 12 * getUInt bigE (sliceBytes bytes pos 2)) 4).length = 4 := by
              rw [sliceBytes_length]; omega
            by_cases hnz : getUInt bigE (sliceBytes bytes (pos + 2 + 12 * getUInt bigE (sliceBytes bytes pos 2)) 4) = 0
            · simp [tiffWalkIFD, tiffSpecChain, readBytes, hlen, hz, hc2, hok, hplen, hp4, hnz,
                hforall, hnoex, Nat.not_lt.mpr hcond.1]
            · simp [tiffWalkIFD, tiffSpecChain, readBytes, hlen, hz, hc2, hok, hplen, hp4, hnz,
                hforall, hnoex, Nat.not_lt.mpr hcond.1, ih]
        · obtain ⟨p, hp⟩ := tiffCheckEntries_of_not_cond bytes bigE tsize
            (getUInt bigE (sliceBytes bytes pos 2)) (pos + 2) (by omega) hcond
          by_cases hlen2 : bytes.length < pos + 2 + 12 * getUInt bigE (sliceBytes bytes pos 2)
          · simp [tiffWalkIFD, tiffSpecChain, readBytes, hlen, hz, hc2, hp, hlen2]
          · have hent : ¬ ∀ i < getUInt bigE (sliceBytes bytes pos 2),
                tiffEntryOK bigE tsize (sliceBytes bytes (pos + 2 + 12 * i) 12) = true := by
              intro hall
              exact hcond ⟨by omega, hall⟩
            simp [tiffWalkIFD, tiffSpecChain, readBytes, hlen, hz, hc2, hp, hlen2, hent]

/-- C7 (amended): with any fuel bound, the TIFF probe's verdict agrees
exactly with the spec's acceptance conditions transcribed with the same fuel
bound: readable header with byte-order word 0x4949 or 0x4D4D and magic 42,
IFD chain with non-zero entry counts, validated entries, full reads and a
zero-pointer termination.  (On an IFD chain that cycles, neither side
returns: the probe loops forever instead of returning false — see the
counterexample.) -/
theorem C7_tiff_probe_matches_spec :
    ∀ (bytes : List Nat) (tiffStart fuel : Nat),
      (tiffIsStreamCompatible bytes tiffStart fuel).map Prod.fst
        = tiffSpecAccepts bytes tiffStart fuel := by
  intro bytes tstart fuel
  by_cases h8 : bytes.length < tstart + 8
  · have hlen : (sliceBytes bytes tstart 8).length ≠ 8 := by
      rw [sliceBytes_length]; omega
    simp [tiffIsStreamCompatible, tiffSpecAccepts, readBytes, hlen, h8]
  · have hlen : (sliceBytes bytes tstart 8).length = 8 := by
      rw [sliceBytes_length]; omega
    have hs0 : sliceBytes (sliceBytes bytes tstart 8) 0 2 = sliceBytes bytes tstart 2 := by
      simpa using sliceBytes_sliceBytes bytes tstart 8 0 2 (by omega)
    have hs2 : sliceBytes (sliceBytes bytes tstart 8) 2 2 = sliceBytes bytes (tstart + 2) 2 :=
      sliceBytes_sliceBytes bytes tstart 8 2 2 (by omega)
    have hs4 : sliceBytes (sliceBytes bytes tstart 8) 4 4 = sliceBytes bytes (tstart + 4) 4 :=
      sliceBytes_sliceBytes bytes tstart 8 4 4 (by omega)
    by_cases hbo : leBytes (sliceBytes bytes tstart 2) = 0x4949 ∨
        leBytes (sliceBytes bytes tstart 2) = 0x4D4D
    · by_cases h42 : getUInt (leBytes (sliceBytes bytes tstart 2) = 0x4D4D)
          (sliceBytes bytes (tstart + 2) 2) = 42
      · simp only [tiffIsStreamCompatible, tiffSpecAccepts, readBytes, hlen, hs0, hs2, hs4]
        rw [if_neg (by simp), if_neg h8, if_pos hbo, if_pos hbo,
          if_neg (by simp [h42]), if_neg (by simp [h42])]
        exact tiffWalkIFD_map_fst bytes tstart
          (leBytes (sliceBytes bytes tstart 2) = 0x4D4D) (bytes.length - tstart) fuel _
      · simp [tiffIsStreamCompatible, tiffSpecAccepts, readBytes, hlen, hs0, hs2, hs4, hbo,
          h42, h8]
    · simp [tiffIsStreamCompatible, tiffSpecAccepts, readBytes, hlen, hs0, hs2, hs4, hbo, h8]

theorem tiffCyclic_walk_none :
    ∀ fuel, tiffWalkIFD tiffCyclicBytes 0 false 26 fuel 8 = none := by
  intro fuel
  induction fuel with
  | zero => rfl
  | succ n ih =>
    have hstep : tiffWalkIFD tiffCyclicBytes 0 false 26 (n + 1) 8
        = tiffWalkIFD tiffCyclicBytes 0 false 26 n 8 := rfl
    rw [hstep]
    exact ih

/-- C7 counterexample: `tiffCyclicBytes` has an IFD chain whose next-IFD
pointer aims back at its own IFD; the chain never terminates with a zero
pointer, so the claim requires the probe to return false, but the probe's
loop revisits the same stream position forever and never returns — with no
fuel bound does it return false. -/
theorem C7_counterexample :
    ¬ ∃ (fuel finalPos : Nat),
        tiffIsStreamCompatible tiffCyclicBytes 0 fuel = some (false, finalPos) := by
  rintro ⟨fuel, p, h⟩
  have hrw : tiffIsStreamCompatible tiffCyclicBytes 0 fuel
      = tiffWalkIFD tiffCyclicBytes 0 false 26 fuel 8 := rfl
  rw [hrw, tiffCyclic_walk_none] at h
  exact Option.noConfusion h

end MagicTxd
